import Mathlib

/-!
Shallow embedding of `src/debug.py` (Frida diagnostic harness for
`mgg-mflac_Convert`).

The program is a single diagnostic routine `run_diag` plus a message sink
`_on_message` and a JS-side wrapper template `wrapped_js`.  External effects
(the filesystem check, the Frida runtime, the clock and `time.sleep`) are
modelled by an explicit environment record `DiagEnv` describing what each
external call would do in this run; `run_diag` is then a pure function from
the environment to a `RunResult` that records the exit code (or the
propagated exception), how many times `attach` and `detach` were invoked,
and the log lines produced.
-/

namespace MggDiag

/-- Equality on `Except` outcomes is decidable; used to evaluate the
embedding on concrete environments. -/
instance {ε α : Type} [DecidableEq ε] [DecidableEq α] : DecidableEq (Except ε α) :=
  fun x y =>
    match x, y with
    | .ok a, .ok b =>
      if h : a = b then .isTrue (h ▸ rfl)
      else .isFalse (fun hh => h (Except.ok.inj hh))
    | .error a, .error b =>
      if h : a = b then .isTrue (h ▸ rfl)
      else .isFalse (fun hh => h (Except.error.inj hh))
    | .ok _, .error _ => .isFalse (fun hh => Except.noConfusion hh)
    | .error _, .ok _ => .isFalse (fun hh => Except.noConfusion hh)

/-- Severity of a `logging` call: `logging.info` or `logging.error`. -/
inductive LogLevel where
  | info
  | error
deriving DecidableEq, Repr

/-- One emitted log line: its level and the rendered message. -/
abbrev LogEntry := LogLevel × String

/-! ## The message sink `_on_message` (src/debug.py:12-31) -/

/-- The fields of a Frida message dict that `_on_message` reads via
`message.get(...)`: a missing key yields Python `None`, modelled by `none`.
`raw` is the `str()` rendering of the whole dict, used only by the
fallback `f"[JS message] {message}"` log line. -/
structure PyMessage where
  mtype : Option String
  payload : Option String
  description : Option String
  stack : Option String
  raw : String
deriving DecidableEq, Repr

/-- A value handed to the `_on_message` callback: either a well-formed
message dict, or a value whose interpretation inside the `try` block
raises (modelled by the text of the raised exception). -/
inductive FridaMessage where
  | dict (d : PyMessage)
  | malformed (err : String)
deriving DecidableEq, Repr

/-- Python `str()` of an optional payload: `None` renders as `"None"`
inside `f"[JS send] {payload}"`. -/
def pyStr : Option String → String
  | none => "None"
  | some s => s

/-- The body of the `try` block of `_on_message` (src/debug.py:16-29):
dispatch on `message.get("type")` and produce the log entries, or raise.
Note Python truthiness on `if stack:`: both `None` and the empty string
suppress the separate `[JS stack]` line; `desc or ""` maps both `None`
and `""` to `""`. -/
def interpretMessage : FridaMessage → Except String (List LogEntry)
  | .malformed e => .error e
  | .dict d =>
    .ok <|
      match d.mtype with
      | some "send" => [(.info, "[JS send] " ++ pyStr d.payload)]
      | some "error" =>
        let first : LogEntry := (.error, "[JS error] " ++ d.description.getD "")
        match d.stack with
        | some s => if s = "" then [first] else [first, (.error, "[JS stack]\n" ++ s)]
        | none => [first]
      | _ => [(.info, "[JS message] " ++ d.raw)]

/-- `_on_message` (src/debug.py:12-31): the whole body sits in a
`try/except`, so any exception raised while interpreting the message is
caught and logged as a parse failure; the callback itself never raises,
which the embedding reflects by being a total function into log entries. -/
def _on_message (m : FridaMessage) : List LogEntry :=
  match interpretMessage m with
  | .ok ls => ls
  | .error e => [(.error, "解析 JS 消息失败: " ++ e)]

/-! ## The wrapped script (src/debug.py:57-81)

`run_diag` wraps the raw script body in an IIFE with a `try/catch`.  We
model the wrapper's operational behaviour: given what the body would do
(the messages it sends before finishing or throwing, whether it throws,
and what the `rpc.exports` inspection yields in the state the body left
behind), `runWrapped` returns the sequence of messages sent, in order,
together with the exception (if any) that propagates out of the IIFE. -/

/-- A JS exception as observed by the wrapper's `catch` blocks:
`description` is `String(e)`, and `stack` is `String(e.stack)` when
`e && e.stack` is truthy, else `null`. -/
structure JsError where
  description : String
  stack : Option String
deriving DecidableEq, Repr

/-- A message sent out of the wrapped script via `send(...)`.  The four
wrapper call sites (src/debug.py:60,65,70,72,77) are distinct
constructors; `bodySend` is any `send` performed by the original body
itself.  Both `exports` and `exportsError` carry stage `"exports"`:
the former is `{"stage":"exports","hasDecrypt":...,"exportKeys":...}`,
the latter is `{"stage":"exports","error":...}`. -/
inductive JsMsg where
  | boot (time : String)
  | finished
  | exports (hasDecrypt : Bool) (exportKeys : Option (List String))
  | exportsError (err : String)
  | fatal (err : String) (stack : Option String)
  | bodySend (payload : String)
deriving DecidableEq, Repr

/-- Does this message report the presence of the `decrypt` export
(the `hasDecrypt` / `exportKeys` form of the stage-`"exports"` send)? -/
def JsMsg.isExportsReport : JsMsg → Bool
  | .exports _ _ => true
  | _ => false

/-- Does this message carry stage `"exports"` (either the presence report
or the captured inspection error)? -/
def JsMsg.isExportsStage : JsMsg → Bool
  | .exports _ _ => true
  | .exportsError _ => true
  | _ => false

/-- Is this the `"js wrapper finished (top-level ok)"` marker
(src/debug.py:65)? -/
def JsMsg.isFinished : JsMsg → Bool
  | .finished => true
  | _ => false

/-- Is this the stage-`"fatal"` send of the catch handler
(src/debug.py:77)? -/
def JsMsg.isFatal : JsMsg → Bool
  | .fatal _ _ => true
  | _ => false

/-- What the original script body does when executed inside the wrapper:
the messages it sends (in order) before either finishing or throwing,
whether it throws at top level, and what inspecting `rpc.exports`
afterwards yields — `.ok (hasDecrypt, exportKeys)` when the inspection
expression evaluates (with `exportKeys = none` for the `null` branch of
`rpc && rpc.exports ? Object.keys(rpc.exports) : null`), `.error e` when
the inspection itself throws `e`. -/
structure BodyBehavior where
  sends : List String
  throws : Option JsError
  check : Except String (Bool × Option (List String))
deriving DecidableEq, Repr

/-- Operational model of the `wrapped_js` template (src/debug.py:57-81),
for a given boot timestamp `now` and body behaviour `b`.  Returns the
messages sent, in order, and the exception propagating out of the IIFE
(`throw e` at src/debug.py:78 re-raises the body's exception after the
fatal send; every other path exits normally). -/
def runWrapped (now : String) (b : BodyBehavior) : List JsMsg × Option JsError :=
  match b.throws with
  | some e =>
    (JsMsg.boot now :: b.sends.map JsMsg.bodySend
      ++ [JsMsg.fatal e.description e.stack], some e)
  | none =>
    let post :=
      match b.check with
      | .ok (h, k) => JsMsg.exports h k
      | .error err => JsMsg.exportsError err
    (JsMsg.boot now :: b.sends.map JsMsg.bodySend
      ++ [JsMsg.finished, post], none)

/-! ## The diagnostic runner `run_diag` (src/debug.py:34-118) -/

/-- Outcome of `frida.attach(process_name)` when it raises:
`frida.ProcessNotFoundError` is caught by its own clause
(src/debug.py:45), any other exception by the generic clause
(src/debug.py:48). -/
inductive AttachErr where
  | procNotFound
  | other (msg : String)
deriving DecidableEq, Repr

/-- The behaviour of the external world for one run: whether the script
file exists, what each call on the Frida runtime would do (return or
raise, with the raised exception's text), and whether `session.detach()`
would raise.  `run_diag` calls `detach` at most once per run, so a single
field describes it. -/
structure DiagEnv where
  jsExists : Bool
  attach : Except AttachErr Unit
  readFile : Except String String
  createScript : Except String Unit
  loadScript : Except String Unit
  exportsSyncAccess : Except String Unit
  getDecryptAttr : Except String Unit
  detachExc : Option String
deriving DecidableEq, Repr

/-- What one run of `run_diag` did: `exit` is the returned code
(`none` when an exception escaped `run_diag` instead of a `return`),
`raised` is that escaped exception, and the counters record how many
times `frida.attach` and `session.detach` were invoked. -/
structure RunResult where
  exit : Option Nat
  raised : Option String
  attachCalls : Nat
  detachCalls : Nat
  logs : List LogEntry
deriving DecidableEq, Repr

/-- The log line of the `frida.ProcessNotFoundError` clause
(src/debug.py:46). -/
def procNotFoundMsg (process_name : String) : String :=
  "未找到进程 " ++ process_name ++ "，请先启动目标程序后再运行 --diag"

/-- The log line of the generic attach failure clause (src/debug.py:49). -/
def attachFailMsg (e : String) : String :=
  "attach 失败: " ++ e

/-- The `try` block at src/debug.py:52-85: read the script file, create
the script from the wrapped source, and load it; the first step that
raises aborts the block with its exception. -/
def loadPhase (env : DiagEnv) : Except String Unit := do
  let _raw ← env.readFile
  let _ ← env.createScript
  env.loadScript

/-- `try: session.detach() except Exception: pass` (src/debug.py:88-91
and 112-115): whether or not detach raises, the exception is swallowed
and exactly one detach invocation is recorded; nothing else of the run
depends on the outcome. -/
def swallowDetach : Option String → Nat
  | some _ => 1
  | none => 1

/-- The host-side best-effort probe (src/debug.py:96-107): access
`script.exports_sync`, then `getattr(..., "decrypt")`, logging but
swallowing every failure. -/
def probeLogs (env : DiagEnv) : List LogEntry :=
  match env.exportsSyncAccess with
  | .error e => [(.error, "Python 侧：exports_sync 不可用（多半 rpc 未注册）: " ++ e)]
  | .ok _ =>
    match env.getDecryptAttr with
    | .ok _ => [(.info, "Python 侧：找到 exports_sync.decrypt（但仍需看 JS 侧 hasDecrypt=true 才算真注册）")]
    | .error e => [(.error, "Python 侧：无法获取 exports_sync.decrypt: " ++ e)]

/-- `run_diag` (src/debug.py:34-118).  Control flow, in source order:
missing script file returns 2 before any attach; an attach exception
returns 2 (process-not-found logged distinctly); a read/create/load
exception logs, best-effort detaches and returns 2; otherwise the probe
runs (failures only logged), then `time.sleep(float(wait_seconds))` —
which raises `ValueError` for a negative duration, escaping `run_diag`
before the final detach — then the final best-effort detach and
return 0.  `os.path.abspath` in the missing-file log is modelled as the
path itself. -/
def run_diag (env : DiagEnv) (process_name : String) (js_path : String)
    (wait_seconds : ℚ) : RunResult :=
  if env.jsExists = false then
    { exit := some 2, raised := none, attachCalls := 0, detachCalls := 0,
      logs := [(.error, "找不到脚本文件: " ++ js_path)] }
  else
    match env.attach with
    | .error .procNotFound =>
      { exit := some 2, raised := none, attachCalls := 1, detachCalls := 0,
        logs := [(.error, procNotFoundMsg process_name)] }
    | .error (.other e) =>
      { exit := some 2, raised := none, attachCalls := 1, detachCalls := 0,
        logs := [(.error, attachFailMsg e)] }
    | .ok _ =>
      match loadPhase env with
      | .error e =>
        { exit := some 2, raised := none, attachCalls := 1,
          detachCalls := swallowDetach env.detachExc,
          logs := [(.error, "加载/运行脚本失败: " ++ e)] }
      | .ok _ =>
        let pLogs := probeLogs env
        let waitLog : LogEntry :=
          (.info, "诊断模式等待 " ++ toString wait_seconds ++ " 秒收集 JS 消息...")
        if wait_seconds < 0 then
          { exit := none, raised := some "ValueError: sleep length must be non-negative",
            attachCalls := 1, detachCalls := 0, logs := pLogs ++ [waitLog] }
        else
          { exit := some 0, raised := none, attachCalls := 1,
            detachCalls := swallowDetach env.detachExc,
            logs := pLogs ++ [waitLog,
              (.info, "诊断结束。请把控制台输出（尤其是 [JS error]/[JS send] stage=fatal/exports）发我。")] }

/-! ## Helper lemmas -/

/-- Both branches of the `try/except pass` around `session.detach()`
record exactly one invocation. -/
lemma swallowDetach_eq_one (d : Option String) : swallowDetach d = 1 := by
  cases d <;> rfl

/-- The exit code of `run_diag` does not depend on whether
`session.detach()` raises: the run with any detach behaviour has the
same `exit` field. -/
lemma run_diag_exit_detachExc (env : DiagEnv) (p j : String) (w : ℚ) (d : Option String) :
    (run_diag { env with detachExc := d } p j w).exit = (run_diag env p j w).exit := by
  obtain ⟨jsE, att, rf, cs, ls, ea, gd, de⟩ := env
  cases jsE
  · simp [run_diag]
  · cases att with
    | error a => cases a <;> simp [run_diag]
    | ok u =>
      have hsame : loadPhase ⟨true, Except.ok u, rf, cs, ls, ea, gd, d⟩
          = loadPhase ⟨true, Except.ok u, rf, cs, ls, ea, gd, de⟩ := rfl
      cases hL : loadPhase ⟨true, Except.ok u, rf, cs, ls, ea, gd, de⟩ with
      | error e => simp [run_diag, hL, hsame.trans hL]
      | ok v =>
        by_cases hw : w < 0 <;> simp [run_diag, hL, hsame.trans hL, hw]

/-- The exit code of `run_diag` does not depend on whether the host-side
probe of `script.exports_sync` / `getattr(..., "decrypt")` raises. -/
lemma run_diag_exit_probe (env : DiagEnv) (p j : String) (w : ℚ)
    (pe ge : Except String Unit) :
    (run_diag { env with exportsSyncAccess := pe, getDecryptAttr := ge } p j w).exit
      = (run_diag env p j w).exit := by
  obtain ⟨jsE, att, rf, cs, ls, ea, gd, de⟩ := env
  cases jsE
  · simp [run_diag]
  · cases att with
    | error a => cases a <;> simp [run_diag]
    | ok u =>
      have hsame : loadPhase ⟨true, Except.ok u, rf, cs, ls, pe, ge, de⟩
          = loadPhase ⟨true, Except.ok u, rf, cs, ls, ea, gd, de⟩ := rfl
      cases hL : loadPhase ⟨true, Except.ok u, rf, cs, ls, ea, gd, de⟩ with
      | error e => simp [run_diag, hL, hsame.trans hL]
      | ok v =>
        by_cases hw : w < 0 <;> simp [run_diag, hL, hsame.trans hL, hw]

/-- A filter that rejects every `bodySend` leaves nothing of the body's
own messages. -/
lemma filter_map_bodySend (p : JsMsg → Bool)
    (hp : ∀ s, p (JsMsg.bodySend s) = false) (l : List String) :
    (l.map JsMsg.bodySend).filter p = [] := by
  induction l with
  | nil => rfl
  | cons a t ih => simp [List.filter_cons, hp, ih]

/-! ## Claim theorems -/

/-- C1 (counterexample): with the script file missing, `run_diag` returns
exit code 2 and `session.detach` is invoked zero times, not once — no
session was ever established, so the claim "detach is invoked exactly
once regardless of which earlier step failed (missing script file, …)"
fails at this input. -/
theorem run_diag_detach_cex :
    (run_diag ⟨false, .ok (), .ok "raw", .ok (), .ok (), .ok (), .ok (), none⟩
      "QQMusic.exe" "hook_qq_music.js" 3).exit = some 2 ∧
    (run_diag ⟨false, .ok (), .ok "raw", .ok (), .ok (), .ok (), .ok (), none⟩
      "QQMusic.exe" "hook_qq_music.js" 3).detachCalls = 0 := by
  decide

/-- C1 (amended): in every run in which a session is established
(`frida.attach` succeeds) and `run_diag` returns an exit code rather
than propagating an exception, `session.detach` is invoked exactly once,
and any exception raised by detach is swallowed: the returned exit code
is the same whatever `detach` does.  (When the script file is missing or
attach fails no session exists and detach is not invoked; when the sleep
raises, `run_diag` propagates before reaching the final detach.) -/
theorem run_diag_detach_once (env : DiagEnv) (p j : String) (w : ℚ)
    (hJ : env.jsExists = true) (hA : env.attach = .ok ())
    (hRet : (run_diag env p j w).exit.isSome = true) :
    (run_diag env p j w).detachCalls = 1 ∧
    ∀ d, (run_diag { env with detachExc := d } p j w).exit
        = (run_diag env p j w).exit := by
  refine ⟨?_, fun d => run_diag_exit_detachExc env p j w d⟩
  cases hL : loadPhase env with
  | error e => simp [run_diag, hJ, hA, hL, swallowDetach_eq_one]
  | ok u =>
    by_cases hw : w < 0
    · exfalso
      simp [run_diag, hJ, hA, hL, hw] at hRet
    · simp [run_diag, hJ, hA, hL, hw, swallowDetach_eq_one]

/-- C1 (witness): a fully successful run detaches exactly once, and a
run whose detach raises returns the same exit code. -/
theorem run_diag_detach_once_witness :
    (run_diag ⟨true, .ok (), .ok "raw", .ok (), .ok (), .ok (), .ok (), none⟩
      "QQMusic.exe" "hook_qq_music.js" 3).detachCalls = 1 ∧
    (run_diag ⟨true, .ok (), .ok "raw", .ok (), .ok (), .ok (), .ok (), some "detach boom"⟩
      "QQMusic.exe" "hook_qq_music.js" 3).exit
      = (run_diag ⟨true, .ok (), .ok "raw", .ok (), .ok (), .ok (), .ok (), none⟩
        "QQMusic.exe" "hook_qq_music.js" 3).exit :=
  ⟨(run_diag_detach_once ⟨true, .ok (), .ok "raw", .ok (), .ok (), .ok (), .ok (), none⟩
      "QQMusic.exe" "hook_qq_music.js" 3 rfl rfl (by decide)).1,
   (run_diag_detach_once ⟨true, .ok (), .ok "raw", .ok (), .ok (), .ok (), .ok (), none⟩
      "QQMusic.exe" "hook_qq_music.js" 3 rfl rfl (by decide)).2 (some "detach boom")⟩

/-- C2: when the script file at `js_path` does not exist, `run_diag`
returns exit code 2 and `frida.attach` is never invoked
(src/debug.py:39-41). -/
theorem run_diag_missing_script (env : DiagEnv) (p j : String) (w : ℚ)
    (h : env.jsExists = false) :
    (run_diag env p j w).exit = some 2 ∧ (run_diag env p j w).attachCalls = 0 := by
  simp [run_diag, h]

/-- C2 (witness): a concrete run with the script file absent. -/
theorem run_diag_missing_script_witness :
    (run_diag ⟨false, .ok (), .ok "raw", .ok (), .ok (), .ok (), .ok (), none⟩
      "QQMusic.exe" "hook_qq_music.js" 5).exit = some 2 ∧
    (run_diag ⟨false, .ok (), .ok "raw", .ok (), .ok (), .ok (), .ok (), none⟩
      "QQMusic.exe" "hook_qq_music.js" 5).attachCalls = 0 :=
  run_diag_missing_script _ "QQMusic.exe" "hook_qq_music.js" 5 rfl

/-- C3: when `frida.attach` raises, `run_diag` returns exit code 2; a
`ProcessNotFoundError` logs the dedicated process-not-found line, any
other attach exception logs the generic attach-failure line, and no
process-not-found line ever coincides with a generic attach-failure
line (their texts differ for all arguments). -/
theorem run_diag_attach_error (env : DiagEnv) (p j : String) (w : ℚ)
    (hJ : env.jsExists = true) :
    (env.attach = .error .procNotFound →
        (run_diag env p j w).exit = some 2 ∧
        (run_diag env p j w).logs = [(.error, procNotFoundMsg p)]) ∧
    (∀ e, env.attach = .error (.other e) →
        (run_diag env p j w).exit = some 2 ∧
        (run_diag env p j w).logs = [(.error, attachFailMsg e)]) ∧
    (∀ q e, procNotFoundMsg q ≠ attachFailMsg e) := by
  refine ⟨fun hA => ?_, fun e hA => ?_, fun q e => ?_⟩
  · simp [run_diag, hJ, hA]
  · simp [run_diag, hJ, hA]
  · intro h
    have h2 := congrArg String.data h
    simp only [procNotFoundMsg, attachFailMsg, String.data_append] at h2
    simp at h2

/-- C3 (witness): a concrete process-not-found run, and the
distinguishability of the two log lines at concrete arguments. -/
theorem run_diag_attach_error_witness :
    ((run_diag ⟨true, .error .procNotFound, .ok "raw", .ok (), .ok (), .ok (), .ok (), none⟩
        "QQMusic.exe" "hook_qq_music.js" 3).exit = some 2 ∧
      (run_diag ⟨true, .error .procNotFound, .ok "raw", .ok (), .ok (), .ok (), .ok (), none⟩
        "QQMusic.exe" "hook_qq_music.js" 3).logs
        = [(.error, procNotFoundMsg "QQMusic.exe")]) ∧
    procNotFoundMsg "QQMusic.exe" ≠ attachFailMsg "device disconnected" :=
  ⟨(run_diag_attach_error
      ⟨true, .error .procNotFound, .ok "raw", .ok (), .ok (), .ok (), .ok (), none⟩
      "QQMusic.exe" "hook_qq_music.js" 3 rfl).1 rfl,
   (run_diag_attach_error
      ⟨true, .error .procNotFound, .ok "raw", .ok (), .ok (), .ok (), .ok (), none⟩
      "QQMusic.exe" "hook_qq_music.js" 3 rfl).2.2 "QQMusic.exe" "device disconnected"⟩

/-- C4: when attach succeeds but reading, creating or loading the script
raises, `run_diag` returns exit code 2 after exactly one best-effort
detach of the established session, and the exit code is the same
whatever the detach attempt does (src/debug.py:86-92). -/
theorem run_diag_load_error (env : DiagEnv) (p j : String) (w : ℚ) (e : String)
    (hJ : env.jsExists = true) (hA : env.attach = .ok ())
    (hL : loadPhase env = .error e) :
    (run_diag env p j w).exit = some 2 ∧
    (run_diag env p j w).detachCalls = 1 ∧
    ∀ d, (run_diag { env with detachExc := d } p j w).exit = some 2 := by
  have h2 : (run_diag env p j w).exit = some 2 := by simp [run_diag, hJ, hA, hL]
  refine ⟨h2, ?_, fun d => (run_diag_exit_detachExc env p j w d).trans h2⟩
  simp [run_diag, hJ, hA, hL, swallowDetach_eq_one]

/-- C4 (witness): a concrete run whose `script.load()` raises, including
one whose subsequent detach also raises. -/
theorem run_diag_load_error_witness :
    (run_diag ⟨true, .ok (), .ok "raw", .ok (), .error "script error", .ok (), .ok (), none⟩
      "QQMusic.exe" "hook_qq_music.js" 3).exit = some 2 ∧
    (run_diag ⟨true, .ok (), .ok "raw", .ok (), .error "script error", .ok (), .ok (), none⟩
      "QQMusic.exe" "hook_qq_music.js" 3).detachCalls = 1 ∧
    (run_diag ⟨true, .ok (), .ok "raw", .ok (), .error "script error", .ok (), .ok (),
        some "detach boom"⟩
      "QQMusic.exe" "hook_qq_music.js" 3).exit = some 2 :=
  ⟨(run_diag_load_error
      ⟨true, .ok (), .ok "raw", .ok (), .error "script error", .ok (), .ok (), none⟩
      "QQMusic.exe" "hook_qq_music.js" 3 "script error" rfl rfl rfl).1,
   (run_diag_load_error
      ⟨true, .ok (), .ok "raw", .ok (), .error "script error", .ok (), .ok (), none⟩
      "QQMusic.exe" "hook_qq_music.js" 3 "script error" rfl rfl rfl).2.1,
   (run_diag_load_error
      ⟨true, .ok (), .ok "raw", .ok (), .error "script error", .ok (), .ok (), none⟩
      "QQMusic.exe" "hook_qq_music.js" 3 "script error" rfl rfl rfl).2.2 (some "detach boom")⟩

/-- C5 (counterexample): a body that completes without throwing but
leaves `rpc.exports` in a state whose inspection throws: the run ends
with the stage-`"exports"` error message and contains no message
reporting whether `decrypt` is present, refuting the claim that the
exports message always reports presence and export keys. -/
theorem runWrapped_exports_cex :
    (runWrapped "T" ⟨[], none, .error "boom"⟩).2 = none ∧
    ((runWrapped "T" ⟨[], none, .error "boom"⟩).1.filter JsMsg.isExportsReport) = [] := by
  decide

/-- C5 (amended): the wrapper's first message is the timestamped boot
marker, emitted before any message of the body; if the body completes
without throwing, the finished marker is emitted strictly after boot
(it sits in the tail, immediately before the last message), followed by
a stage-`"exports"` message that reports whether `decrypt` is present
and which export keys exist when the inspection succeeds, and carries
the inspection error otherwise. -/
theorem runWrapped_boot_finished_exports (now : String) (b : BodyBehavior)
    (h : b.throws = none) :
    (runWrapped now b).1.head? = some (.boot now) ∧
    (runWrapped now b).1.dropLast.getLast? = some .finished ∧
    JsMsg.finished ∈ (runWrapped now b).1.tail ∧
    (match b.check with
     | .ok (hD, k) => (runWrapped now b).1.getLast? = some (.exports hD k)
     | .error err => (runWrapped now b).1.getLast? = some (.exportsError err)) := by
  refine ⟨?_, ?_, ?_, ?_⟩
  · simp [runWrapped, h]
  · simp only [runWrapped, h]
    rw [show JsMsg.boot now :: b.sends.map JsMsg.bodySend
          ++ [JsMsg.finished,
              match b.check with
              | .ok (hD, k) => JsMsg.exports hD k
              | .error err => JsMsg.exportsError err]
        = ((JsMsg.boot now :: b.sends.map JsMsg.bodySend) ++ [JsMsg.finished])
          ++ [match b.check with
              | .ok (hD, k) => JsMsg.exports hD k
              | .error err => JsMsg.exportsError err] from by simp]
    rw [List.dropLast_concat]
    exact List.getLast?_concat _
  · simp [runWrapped, h]
  · rcases hc : b.check with err | ⟨hD, k⟩
    · simp only [runWrapped, h, hc]
      rw [show JsMsg.boot now :: b.sends.map JsMsg.bodySend
            ++ [JsMsg.finished, JsMsg.exportsError err]
          = (JsMsg.boot now :: b.sends.map JsMsg.bodySend ++ [JsMsg.finished])
            ++ [JsMsg.exportsError err] from by simp]
      exact List.getLast?_concat _
    · simp only [runWrapped, h, hc]
      rw [show JsMsg.boot now :: b.sends.map JsMsg.bodySend
            ++ [JsMsg.finished, JsMsg.exports hD k]
          = (JsMsg.boot now :: b.sends.map JsMsg.bodySend ++ [JsMsg.finished])
            ++ [JsMsg.exports hD k] from by simp]
      exact List.getLast?_concat _

/-- C5 (witness): a body that sends one message, completes, and whose
export inspection finds `decrypt` registered. -/
theorem runWrapped_boot_finished_exports_witness :
    (runWrapped "T" ⟨["m"], none, .ok (true, some ["decrypt"])⟩).1.head?
      = some (.boot "T") ∧
    (runWrapped "T" ⟨["m"], none, .ok (true, some ["decrypt"])⟩).1.dropLast.getLast?
      = some .finished ∧
    JsMsg.finished ∈ (runWrapped "T" ⟨["m"], none, .ok (true, some ["decrypt"])⟩).1.tail ∧
    (runWrapped "T" ⟨["m"], none, .ok (true, some ["decrypt"])⟩).1.getLast?
      = some (.exports true (some ["decrypt"])) :=
  runWrapped_boot_finished_exports "T" ⟨["m"], none, .ok (true, some ["decrypt"])⟩ rfl

/-- C6: when the body throws at top level, the wrapper's catch handler
emits the stage-`"fatal"` message carrying the error description and its
stack (when available) as the last message before re-raising the original
exception, and the wrapper emits no finished marker and no
stage-`"exports"` message in that run. -/
theorem runWrapped_fatal_on_throw (now : String) (b : BodyBehavior) (e : JsError)
    (h : b.throws = some e) :
    (runWrapped now b).2 = some e ∧
    (runWrapped now b).1.head? = some (.boot now) ∧
    (runWrapped now b).1.getLast? = some (.fatal e.description e.stack) ∧
    (runWrapped now b).1.filter JsMsg.isFinished = [] ∧
    (runWrapped now b).1.filter JsMsg.isExportsStage = [] := by
  refine ⟨?_, ?_, ?_, ?_, ?_⟩
  · simp [runWrapped, h]
  · simp [runWrapped, h]
  · simp only [runWrapped, h]
    rw [show JsMsg.boot now :: b.sends.map JsMsg.bodySend
          ++ [JsMsg.fatal e.description e.stack]
        = (JsMsg.boot now :: b.sends.map JsMsg.bodySend)
          ++ [JsMsg.fatal e.description e.stack] from rfl]
    exact List.getLast?_concat _
  · simp [runWrapped, h, List.filter_cons, List.filter_append,
      filter_map_bodySend JsMsg.isFinished (fun s => rfl), JsMsg.isFinished]
  · simp [runWrapped, h, List.filter_cons, List.filter_append,
      filter_map_bodySend JsMsg.isExportsStage (fun s => rfl), JsMsg.isExportsStage]

/-- C6 (witness): a body that sends one message and then throws an error
with a stack trace. -/
theorem runWrapped_fatal_on_throw_witness :
    (runWrapped "T" ⟨["m"], some ⟨"Err", some "Stk"⟩, .ok (false, none)⟩).2
      = some ⟨"Err", some "Stk"⟩ ∧
    (runWrapped "T" ⟨["m"], some ⟨"Err", some "Stk"⟩, .ok (false, none)⟩).1.head?
      = some (.boot "T") ∧
    (runWrapped "T" ⟨["m"], some ⟨"Err", some "Stk"⟩, .ok (false, none)⟩).1.getLast?
      = some (.fatal "Err" (some "Stk")) ∧
    (runWrapped "T" ⟨["m"], some ⟨"Err", some "Stk"⟩, .ok (false, none)⟩).1.filter
      JsMsg.isFinished = [] ∧
    (runWrapped "T" ⟨["m"], some ⟨"Err", some "Stk"⟩, .ok (false, none)⟩).1.filter
      JsMsg.isExportsStage = [] :=
  runWrapped_fatal_on_throw "T" ⟨["m"], some ⟨"Err", some "Stk"⟩, .ok (false, none)⟩
    ⟨"Err", some "Stk"⟩ rfl

/-- C7: the export-presence check never throws uncaught: whenever the
body completes (so the check runs), no exception propagates out of the
wrapper, and for every outcome of the inspection a stage-`"exports"`
message is sent — the presence report when the inspection evaluates, the
captured error when it throws. -/
theorem runWrapped_check_never_propagates (now : String) (b : BodyBehavior)
    (h : b.throws = none) :
    (runWrapped now b).2 = none ∧
    (match b.check with
     | .ok (hD, k) => JsMsg.exports hD k ∈ (runWrapped now b).1
     | .error err => JsMsg.exportsError err ∈ (runWrapped now b).1) := by
  refine ⟨by simp [runWrapped, h], ?_⟩
  rcases hc : b.check with err | ⟨hD, k⟩ <;> simp [runWrapped, h, hc]

/-- C7 (witness): a body whose export inspection itself throws — the
error is shipped as a stage-`"exports"` message and nothing propagates. -/
theorem runWrapped_check_never_propagates_witness :
    (runWrapped "T" ⟨[], none, .error "getter boom"⟩).2 = none ∧
    JsMsg.exportsError "getter boom" ∈ (runWrapped "T" ⟨[], none, .error "getter boom"⟩).1 :=
  runWrapped_check_never_propagates "T" ⟨[], none, .error "getter boom"⟩ rfl

/-- C8: `_on_message` is total (it never raises) and dispatches on the
message kind: a `"send"` message logs its payload, an `"error"` message
logs the description and, when a non-empty stack is present, the stack
as a separate entry, any other kind logs the raw message, and a value
whose interpretation raises is caught and logged as a parse failure. -/
theorem on_message_dispatch :
    (∀ d : PyMessage, d.mtype = some "send" →
        _on_message (.dict d) = [(.info, "[JS send] " ++ pyStr d.payload)]) ∧
    (∀ d : PyMessage, d.mtype = some "error" →
        _on_message (.dict d)
          = (LogLevel.error, "[JS error] " ++ d.description.getD "")
            :: (match d.stack with
                | some s => if s = "" then [] else [(LogLevel.error, "[JS stack]\n" ++ s)]
                | none => [])) ∧
    (∀ d : PyMessage, d.mtype ≠ some "send" → d.mtype ≠ some "error" →
        _on_message (.dict d) = [(.info, "[JS message] " ++ d.raw)]) ∧
    (∀ e : String, _on_message (.malformed e)
        = [(.error, "解析 JS 消息失败: " ++ e)]) := by
  refine ⟨fun d h => ?_, fun d h => ?_, fun d h1 h2 => ?_, fun e => rfl⟩
  · simp [_on_message, interpretMessage, h]
  · rcases hs : d.stack with _ | s
    · simp [_on_message, interpretMessage, h, hs]
    · by_cases he : s = "" <;> simp [_on_message, interpretMessage, h, hs, he]
  · rcases hm : d.mtype with _ | s
    · simp [_on_message, interpretMessage, hm]
    · have hs1 : s ≠ "send" := fun hh => h1 (by rw [hm, hh])
      have hs2 : s ≠ "error" := fun hh => h2 (by rw [hm, hh])
      simp [_on_message, interpretMessage, hm, hs1, hs2]

/-- C8 (witness): the four dispatch branches evaluated at concrete
messages. -/
theorem on_message_dispatch_witness :
    _on_message (.dict ⟨some "send", some "hello", none, none, "r"⟩)
      = [(.info, "[JS send] hello")] ∧
    _on_message (.dict ⟨some "error", none, some "Desc", some "Stk", "r"⟩)
      = [(.error, "[JS error] Desc"), (.error, "[JS stack]\nStk")] ∧
    _on_message (.dict ⟨some "log", none, none, none, "raw dict"⟩)
      = [(.info, "[JS message] raw dict")] ∧
    _on_message (.malformed "not a dict")
      = [(.error, "解析 JS 消息失败: not a dict")] :=
  ⟨on_message_dispatch.1 ⟨some "send", some "hello", none, none, "r"⟩ rfl,
   on_message_dispatch.2.1 ⟨some "error", none, some "Desc", some "Stk", "r"⟩ rfl,
   on_message_dispatch.2.2.1 ⟨some "log", none, none, none, "raw dict"⟩
     (by decide) (by decide),
   on_message_dispatch.2.2.2 "not a dict"⟩

/-- C9 (counterexample): a run whose load phase succeeds but whose wait
duration is negative does not return exit code 0: `time.sleep` raises
and `run_diag` returns no exit status at all. -/
theorem run_diag_success_cex :
    loadPhase ⟨true, .ok (), .ok "raw", .ok (), .ok (), .ok (), .ok (), none⟩ = .ok () ∧
    (run_diag ⟨true, .ok (), .ok "raw", .ok (), .ok (), .ok (), .ok (), none⟩
      "QQMusic.exe" "hook_qq_music.js" (-1)).exit = none := by
  decide

/-- C9 (amended): whenever the script load succeeds and the wait duration
is non-negative (so the sleep returns), `run_diag` returns exit code 0
with no propagated exception, and the exit code is unchanged whatever the
host-side probe of the remote export does; in-target errors reach the
host only through the message channel and do not appear in `run_diag`'s
control flow at all. -/
theorem run_diag_success (env : DiagEnv) (p j : String) (w : ℚ)
    (hJ : env.jsExists = true) (hA : env.attach = .ok ())
    (hL : loadPhase env = .ok ()) (hW : 0 ≤ w) :
    (run_diag env p j w).exit = some 0 ∧
    (run_diag env p j w).raised = none ∧
    ∀ pe gd, (run_diag
        { env with exportsSyncAccess := pe, getDecryptAttr := gd } p j w).exit
      = some 0 := by
  have hw' : ¬ w < 0 := not_lt.mpr hW
  have h0 : (run_diag env p j w).exit = some 0 := by simp [run_diag, hJ, hA, hL, hw']
  refine ⟨h0, ?_, fun pe gd => (run_diag_exit_probe env p j w pe gd).trans h0⟩
  simp [run_diag, hJ, hA, hL, hw']

/-- C9 (witness): a successful run, including one whose host-side probe
fails entirely. -/
theorem run_diag_success_witness :
    (run_diag ⟨true, .ok (), .ok "raw", .ok (), .ok (), .ok (), .ok (), none⟩
      "QQMusic.exe" "hook_qq_music.js" 5).exit = some 0 ∧
    (run_diag ⟨true, .ok (), .ok "raw", .ok (), .ok (), .ok (), .ok (), none⟩
      "QQMusic.exe" "hook_qq_music.js" 5).raised = none ∧
    (run_diag ⟨true, .ok (), .ok "raw", .ok (), .ok (),
        .error "rpc down", .error "no attr", none⟩
      "QQMusic.exe" "hook_qq_music.js" 5).exit = some 0 :=
  ⟨(run_diag_success ⟨true, .ok (), .ok "raw", .ok (), .ok (), .ok (), .ok (), none⟩
      "QQMusic.exe" "hook_qq_music.js" 5 rfl rfl rfl (by decide)).1,
   (run_diag_success ⟨true, .ok (), .ok "raw", .ok (), .ok (), .ok (), .ok (), none⟩
      "QQMusic.exe" "hook_qq_music.js" 5 rfl rfl rfl (by decide)).2.1,
   (run_diag_success ⟨true, .ok (), .ok "raw", .ok (), .ok (), .ok (), .ok (), none⟩
      "QQMusic.exe" "hook_qq_music.js" 5 rfl rfl rfl (by decide)).2.2
     (.error "rpc down") (.error "no attr")⟩

/-- C10: with a negative wait duration and a successful load, `run_diag`
returns no exit status: the sleep raises `ValueError`, the exception
propagates out of `run_diag`, and the final detach after the sleep is
never performed. -/
theorem run_diag_negative_wait (env : DiagEnv) (p j : String) (w : ℚ)
    (hJ : env.jsExists = true) (hA : env.attach = .ok ())
    (hL : loadPhase env = .ok ()) (hW : w < 0) :
    (run_diag env p j w).exit = none ∧
    (run_diag env p j w).raised = some "ValueError: sleep length must be non-negative" ∧
    (run_diag env p j w).detachCalls = 0 := by
  simp [run_diag, hJ, hA, hL, hW]

/-- C10 (witness): a concrete run with wait −1. -/
theorem run_diag_negative_wait_witness :
    (run_diag ⟨true, .ok (), .ok "raw", .ok (), .ok (), .ok (), .ok (), none⟩
      "QQMusic.exe" "hook_qq_music.js" (-1)).exit = none ∧
    (run_diag ⟨true, .ok (), .ok "raw", .ok (), .ok (), .ok (), .ok (), none⟩
      "QQMusic.exe" "hook_qq_music.js" (-1)).raised
      = some "ValueError: sleep length must be non-negative" ∧
    (run_diag ⟨true, .ok (), .ok "raw", .ok (), .ok (), .ok (), .ok (), none⟩
      "QQMusic.exe" "hook_qq_music.js" (-1)).detachCalls = 0 :=
  run_diag_negative_wait ⟨true, .ok (), .ok "raw", .ok (), .ok (), .ok (), .ok (), none⟩
    "QQMusic.exe" "hook_qq_music.js" (-1) rfl rfl rfl (by decide)

end MggDiag
